import Mathlib

/-!
Verification of the Krypton VPN client core against its specification.

The development shallowly embeds the parts of the code base that the
checked properties talk about:

* `common/cpp/public_metadata/fingerprint.cc` — `FingerprintPublicMetadata`
  (SHA-256 over the concatenated metadata fields, first 8 bytes read back
  through a hex string);
* `common/cpp/public_metadata/serialize.cc` — the sortable big-endian
  `uint64` key encoding;
* `krypton/datapath/ipsec/ipsec_packet_pool.cc` — the fixed-capacity packet
  pool;
* the `Session` state machine.  `session.cc` itself is not part of the
  source tree that was provided (only `session_test.cc` and the interface
  headers are), so the machine is modelled from the specification's
  transition table and operation descriptions, cross-checked against the
  expectations encoded in `session_test.cc`.

Byte strings are modelled as `List Nat` with every entry `< 256`; machine
words are `Nat` reduced modulo `2 ^ 32` / `2 ^ 64` where the C++ code relies
on fixed-width arithmetic.
-/

namespace Krypton

/-! ### SHA-256 (the digest used by `FingerprintPublicMetadata`) -/

/-- Truncation to a 32-bit word, the width of every SHA-256 temporary. -/
def w32 (n : Nat) : Nat := n % 4294967296

/-- 32-bit right rotation. -/
def rotr32 (n x : Nat) : Nat := w32 ((x >>> n) ||| (x <<< (32 - n)))

def bigSigma0 (x : Nat) : Nat := rotr32 2 x ^^^ rotr32 13 x ^^^ rotr32 22 x

def bigSigma1 (x : Nat) : Nat := rotr32 6 x ^^^ rotr32 11 x ^^^ rotr32 25 x

def smallSigma0 (x : Nat) : Nat := rotr32 7 x ^^^ rotr32 18 x ^^^ (x >>> 3)

def smallSigma1 (x : Nat) : Nat := rotr32 17 x ^^^ rotr32 19 x ^^^ (x >>> 10)

def chFn (x y z : Nat) : Nat := (x &&& y) ^^^ ((x ^^^ 4294967295) &&& z)

def majFn (x y z : Nat) : Nat := (x &&& y) ^^^ (x &&& z) ^^^ (y &&& z)

/-- The 64 SHA-256 round constants (FIPS 180-4 §4.2.2, in decimal). -/
def sha256K : List Nat :=
  [1116352408, 1899447441, 3049323471, 3921009573, 961987163, 1508970993,
   2453635748, 2870763221, 3624381080, 310598401, 607225278, 1426881987,
   1925078388, 2162078206, 2614888103, 3248222580, 3835390401, 4022224774,
   264347078, 604807628, 770255983, 1249150122, 1555081692, 1996064986,
   2554220882, 2821834349, 2952996808, 3210313671, 3336571891, 3584528711,
   113926993, 338241895, 666307205, 773529912, 1294757372, 1396182291,
   1695183700, 1986661051, 2177026350, 2456956037, 2730485921, 2820302411,
   3259730800, 3345764771, 3516065817, 3600352804, 4094571909, 275423344,
   430227734, 506948616, 659060556, 883997877, 958139571, 1322822218,
   1537002063, 1747873779, 1955562222, 2024104815, 2227730452, 2361852424,
   2428436474, 2756734187, 3204031479, 3329325298]

/-- The SHA-256 working state: eight 32-bit words. -/
structure Hash8 where
  a : Nat
  b : Nat
  c : Nat
  d : Nat
  e : Nat
  f : Nat
  g : Nat
  h : Nat
deriving Repr, DecidableEq

/-- The SHA-256 initial hash value (FIPS 180-4 §5.3.3, in decimal). -/
def sha256H0 : Hash8 :=
  ⟨1779033703, 3144134277, 1013904242, 2773480762,
   1359893119, 2600822924, 528734635, 1541459225⟩

/-- `n` bytes of `x`, most significant first. -/
def beBytes : Nat → Nat → List Nat
  | 0, _ => []
  | n + 1, x => beBytes n (x / 256) ++ [x % 256]

/-- Big-endian value of a byte string (how an 8-byte key is read back). -/
def beNat (bs : List Nat) : Nat := bs.foldl (fun a b => a * 256 + b) 0

/-- SHA-256 padding: `0x80`, zeros to 56 mod 64, then the bit length. -/
def sha256Pad (msg : List Nat) : List Nat :=
  msg ++ [128] ++ List.replicate ((64 - (msg.length + 9) % 64) % 64) 0 ++
    beBytes 8 (msg.length * 8)

/-- Split a byte string into 64-byte blocks (`fuel` bounds the recursion). -/
def chunksGo : Nat → List Nat → List (List Nat)
  | 0, _ => []
  | _ + 1, [] => []
  | n + 1, l => l.take 64 :: chunksGo n (l.drop 64)

def chunks64 (l : List Nat) : List (List Nat) := chunksGo l.length l

/-- The sixteen big-endian 32-bit words of one 64-byte block. -/
def blockWords (block : List Nat) : List Nat :=
  (List.range 16).map (fun i => beNat ((block.drop (4 * i)).take 4))

/-- One step of the message-schedule extension. -/
def extendOnce (l : List Nat) : List Nat :=
  l ++ [w32 (smallSigma1 (l.getD (l.length - 2) 0) + l.getD (l.length - 7) 0 +
             smallSigma0 (l.getD (l.length - 15) 0) + l.getD (l.length - 16) 0)]

/-- Extend the sixteen block words to the 64-entry message schedule. -/
def messageSchedule (ws : List Nat) : List Nat :=
  (List.range 48).foldl (fun l _ => extendOnce l) ws

/-- One SHA-256 round; `kw` is the round constant plus the schedule word. -/
def sha256Round (st : Hash8) (kw : Nat) : Hash8 :=
  let t1 := w32 (st.h + bigSigma1 st.e + chFn st.e st.f st.g + kw)
  let t2 := w32 (bigSigma0 st.a + majFn st.a st.b st.c)
  ⟨w32 (t1 + t2), st.a, st.b, st.c, w32 (st.d + t1), st.e, st.f, st.g⟩

/-- Compress one 64-byte block into the running hash state. -/
def sha256Compress (st : Hash8) (block : List Nat) : Hash8 :=
  let fin := (sha256K.zip (messageSchedule (blockWords block))).foldl
    (fun s p => sha256Round s (p.1 + p.2)) st
  ⟨w32 (st.a + fin.a), w32 (st.b + fin.b), w32 (st.c + fin.c),
   w32 (st.d + fin.d), w32 (st.e + fin.e), w32 (st.f + fin.f),
   w32 (st.g + fin.g), w32 (st.h + fin.h)⟩

/-- The four big-endian bytes of a 32-bit word. -/
def wordBytes (x : Nat) : List Nat :=
  [x / 16777216 % 256, x / 65536 % 256, x / 256 % 256, x % 256]

/-- SHA-256 of a byte string: a 32-byte digest. -/
def sha256 (msg : List Nat) : List Nat :=
  let fin := (chunks64 (sha256Pad msg)).foldl sha256Compress sha256H0
  wordBytes fin.a ++ wordBytes fin.b ++ wordBytes fin.c ++ wordBytes fin.d ++
    wordBytes fin.e ++ wordBytes fin.f ++ wordBytes fin.g ++ wordBytes fin.h

/-! ### `PublicMetadata` and `FingerprintPublicMetadata`
(`common/cpp/public_metadata/fingerprint.cc`) -/

/-- UTF-8 bytes of a string literal (all literals used here are ASCII). -/
def asciiBytes (s : String) : List Nat := s.data.map Char.toNat

/-- Decimal digit characters of a natural number, as `absl::StrCat` renders
them (most significant first). -/
def natDecimalBytes (n : Nat) : List Nat := (Nat.toDigits 10 n).map Char.toNat

/-- Decimal rendering of a (signed) integer, with a leading `-` (byte 45)
when negative, as `absl::StrCat` renders an `int64_t`. -/
def intDecimalBytes (i : Int) : List Nat :=
  if i < 0 then 45 :: natDecimalBytes i.natAbs else natDecimalBytes i.toNat

/-- `OmitDefault` from `fingerprint.cc`: a numeric field equal to 0 renders
as the empty string, otherwise as its decimal form. -/
def omitDefault (i : Int) : List Nat := if i = 0 then [] else intDecimalBytes i

/-- The `PublicMetadata.Location` submessage (tag-ordered fields). -/
structure ExitLocation where
  country : List Nat
  cityGeoId : List Nat
deriving Repr, DecidableEq

/-- `google.protobuf.Timestamp`. -/
structure ProtoTimestamp where
  seconds : Int
  nanos : Int
deriving Repr, DecidableEq

/-- The `PublicMetadata` message.  The submessage fields have explicit
presence in proto3, hence `Option`; the scalar fields do not (an absent
scalar is its default value). -/
structure PublicMetadata where
  exitLocation : Option ExitLocation
  serviceType : List Nat
  expiration : Option ProtoTimestamp
  debugMode : Nat
deriving Repr, DecidableEq

/-- The proto getter `metadata.exit_location()`: the default (empty)
submessage when the field is absent. -/
def PublicMetadata.exitLocationGet (m : PublicMetadata) : ExitLocation :=
  m.exitLocation.getD ⟨[], []⟩

/-- The proto getter `metadata.expiration()`. -/
def PublicMetadata.expirationGet (m : PublicMetadata) : ProtoTimestamp :=
  m.expiration.getD ⟨0, 0⟩

/-- The `absl::StrCat` input of `FingerprintPublicMetadata`: the fields in
tag order, with zero-valued numeric fields omitted. -/
def fingerprintInput (m : PublicMetadata) : List Nat :=
  m.exitLocationGet.country ++ m.exitLocationGet.cityGeoId ++
    m.serviceType ++ omitDefault m.expirationGet.seconds ++
    omitDefault m.expirationGet.nanos

/-- Lowercase hex digit character of a nibble, as `absl::BytesToHexString`
writes it. -/
def hexDigitCode (n : Nat) : Nat := if n < 10 then 48 + n else 87 + n

/-- The two hex characters of one byte, high nibble first. -/
def byteToHexCodes (b : Nat) : List Nat :=
  [hexDigitCode (b / 16 % 16), hexDigitCode (b % 16)]

/-- `absl::BytesToHexString`: every byte becomes two lowercase hex
characters. -/
def bytesToHexCodes : List Nat → List Nat
  | [] => []
  | b :: bs => byteToHexCodes b ++ bytesToHexCodes bs

/-- Value of one hex character (`absl::SimpleHexAtoi` accepts both cases). -/
def hexCodeVal (c : Nat) : Option Nat :=
  if 48 ≤ c ∧ c ≤ 57 then some (c - 48)
  else if 97 ≤ c ∧ c ≤ 102 then some (c - 87)
  else if 65 ≤ c ∧ c ≤ 70 then some (c - 55)
  else none

/-- One step of the hex parse: fail on a non-hex character. -/
def hexAccum (acc : Option Nat) (c : Nat) : Option Nat :=
  acc.bind (fun a => (hexCodeVal c).map (fun v => a * 16 + v))

/-- `absl::SimpleHexAtoi` into a `uint64_t`: fails on the empty string, on a
non-hex character, or when the value does not fit in 64 bits. -/
def simpleHexAtoi (cs : List Nat) : Option Nat :=
  if cs = [] then none
  else (cs.foldl hexAccum (some 0)).bind
    (fun v => if v < 18446744073709551616 then some v else none)

/-- `FingerprintPublicMetadata`: SHA-256 the concatenated fields, hex-encode
the digest buffer (which `digest.resize(EVP_MAX_MD_SIZE)` zero-pads to 64
bytes), and parse the first 16 hex characters back as a `uint64_t`.
`none` models the `absl::InternalError` return paths. -/
def fingerprintPublicMetadata (m : PublicMetadata) : Option Nat :=
  let digest := sha256 (fingerprintInput m) ++ List.replicate 32 0
  simpleHexAtoi ((bytesToHexCodes digest).take 16)

/-- Modelled from the spec (§6, "PublicMetadata fingerprint (bit-exact)"):
concatenate the UTF-8 byte forms of the fields in tag order, omitting any
numeric field whose value is 0; apply SHA-256; take the first 8 bytes of
the digest and interpret them as a big-endian unsigned 64-bit integer. -/
def fingerprintSpecModel (m : PublicMetadata) : Nat :=
  beNat ((sha256 (m.exitLocationGet.country ++ m.exitLocationGet.cityGeoId ++
    m.serviceType ++ omitDefault m.expirationGet.seconds ++
    omitDefault m.expirationGet.nanos)).take 8)

/-! ### Sortable `uint64` key encoding
(`common/cpp/public_metadata/serialize.cc`) -/

/-- `Uint64ToBytes` / `BytesFromUint64`: the eight bytes of `htobe64(fp)`,
most significant first. -/
def uint64ToBytes (x : Nat) : List Nat :=
  [x / 72057594037927936 % 256, x / 281474976710656 % 256,
   x / 1099511627776 % 256, x / 4294967296 % 256,
   x / 16777216 % 256, x / 65536 % 256, x / 256 % 256, x % 256]

/-- `BytesToUint64`: read an 8-byte string back as a big-endian value. -/
def bytesToUint64 (bs : List Nat) : Nat := beNat bs

/-- Lexicographic (`std::string`-style) comparison of two byte strings:
`lexLeBytes as bs = true` iff `as ≤ bs`. -/
def lexLeBytes : List Nat → List Nat → Bool
  | [], _ => true
  | _ :: _, [] => false
  | a :: as, b :: bs =>
    if a < b then true else if b < a then false else lexLeBytes as bs

/-! ### IpSec packet pool (`krypton/datapath/ipsec/ipsec_packet_pool.cc`)

The pool is a mutex-protected vector of pointers into a fixed array of
`kPacketPoolSize` packets.  Packets are identified here by their index in
that array; `available` lists the indices currently in the pool, in stack
order (`Borrow` takes `available_.back()`, `Return` pushes back). -/

/-- `kPacketPoolSize` from `ipsec_packet_pool.cc`. -/
def kPacketPoolSize : Nat := 400

/-- `kBorrowWaitTimeout` from `ipsec_packet_pool.cc`, in milliseconds. -/
def kBorrowWaitTimeoutMillis : Nat := 50

/-- The pool's mutable state: the indices of the packets currently
available for borrowing. -/
structure PoolState where
  available : List (Fin kPacketPoolSize)
deriving Repr, DecidableEq

/-- The constructor's state: every packet of the backing array is pushed
onto `available_` in order. -/
def initPool : PoolState := ⟨List.finRange kPacketPoolSize⟩

/-- `Borrow()` once the mutex is held and no further `Return` arrives
before the deadline: an empty `available_` yields the null handle,
otherwise the last element is removed and handed out. -/
def poolBorrow (s : PoolState) : Option (Fin kPacketPoolSize) × PoolState :=
  match s.available.getLast? with
  | none => (none, s)
  | some p => (some p, ⟨s.available.dropLast⟩)

/-- `Return(packet)`, run by the handle's deleter when the last reference
is dropped: push the packet back onto `available_`. -/
def poolReturn (s : PoolState) (p : Fin kPacketPoolSize) : PoolState :=
  ⟨s.available ++ [p]⟩

/-! ### The Session state machine

`session.cc` is not part of the provided sources — only `session_test.cc`
and the interface headers are.  Every definition in this section is
therefore modelled from the specification (§3 data model, §4.5 operations
and transition table, §7 error propagation) and cross-checked against the
expectations of `session_test.cc`.  Timers are modelled by whether they are
armed; external calls whose outcome feeds the machine (`CreateTunnel`)
appear as event parameters. -/

/-- Modelled from the spec: the Session state variant (§3). -/
inductive SState
  | initialized
  | egressSessionCreated
  | controlPlaneConnected
  | dataPlaneConnecting
  | dataPlaneConnected
  | sessionError
  | permanentError
  | stopped
deriving Repr, DecidableEq

inductive NetworkType
  | cellular
  | wifi
  | unknown
deriving Repr, DecidableEq

/-- `NetworkInfo` (§3). -/
structure NetworkInfo where
  networkId : Nat
  networkType : NetworkType
deriving Repr, DecidableEq

/-- Modelled from the spec: the `PpnStatusDetails.detailed_error_code`
values the claims mention (`ppn_status.proto` is not in the sources). -/
inductive PpnDetailedErrorCode
  | unknown
  | vpnPermissionRevoked
  | disallowedCountry
deriving Repr, DecidableEq

inductive StatusCode
  | ok
  | invalidArgument
  | failedPrecondition
  | internal
  | deadlineExceeded
  | unavailable
deriving Repr, DecidableEq

/-- An `absl::Status` together with its PPN status detail. -/
structure StatusC where
  code : StatusCode
  message : String
  detail : PpnDetailedErrorCode
deriving Repr, DecidableEq

/-- Modelled from the spec (§7; `utils/status.h` only declares it):
`IsPermanentError` holds iff the structured status detail is in the
permanent set, currently exactly `VPN_PERMISSION_REVOKED`.  The status
text plays no part. -/
def isPermanentError (st : StatusC) : Bool :=
  st.detail = PpnDetailedErrorCode.vpnPermissionRevoked

/-- The notifications Session posts to the embedder (§6). -/
inductive Notif
  | controlPlaneConnected
  | controlPlaneDisconnected (status : StatusC)
  | permanentFailure (status : StatusC)
  | datapathConnecting
  | datapathConnected
  | datapathDisconnected (network : Option NetworkInfo) (status : StatusC)
deriving Repr, DecidableEq

/-- Endpoint address family cursor of `DatapathAttemptState` (§3). -/
inductive IpFamily
  | v4
  | v6
deriving Repr, DecidableEq

def flipFamily : IpFamily → IpFamily
  | .v4 => .v6
  | .v6 => .v4

/-- Outcome of the `CreateTunnel` call an event triggers. -/
inductive TunnelResult
  | ok
  | err (status : StatusC)
deriving Repr, DecidableEq

/-- Modelled from the spec: the Session fields the claims are about
(§3 data model; timers as armed/not armed; `notifications` is the ordered
log of notifications posted to the embedder). -/
structure SessionS where
  state : SState
  activeNetwork : Option NetworkInfo
  datapath : Bool
  reattemptCount : Nat
  reattemptTimer : Bool
  connectingTimer : Bool
  rekeyTimer : Bool
  endpointCursor : IpFamily
  uplinkMtu : Nat
  tunnelMtu : Nat
  downlinkMtu : Nat
  notifications : List Notif
deriving Repr, DecidableEq

/-- `KryptonConfig.max_datapath_reattempts` default (§3). -/
def maxDatapathReattempts : Nat := 4

/-- The freshly constructed Session. -/
def initialSession : SessionS :=
  ⟨.initialized, none, false, 0, false, false, false, .v6, 0, 0, 0, []⟩

/-- The inputs that drive the machine (§4.5 operations, datapath
notifications and timer expiries). -/
inductive Event
  | start
  | provisioned (tunnel : TunnelResult)
  | provisioningFailure (status : StatusC) (permanent : Bool)
  | setNetwork (ni : NetworkInfo) (tunnel : TunnelResult)
  | setNoNetworkAvailable
  | datapathEstablished
  | datapathFailed (status : StatusC)
  | datapathPermanentFailure (status : StatusC)
  | attemptDatapathReconnect
  | connectingTimerExpiry
  | rekeyTimerExpiry
  | uplinkMtuUpdate (uplinkMtu tunnelMtu : Nat) (tunnel : TunnelResult)
  | downlinkMtuUpdate (downlinkMtu : Nat)
  | forceTunnelUpdate (tunnel : TunnelResult)
  | stop
deriving Repr, DecidableEq

/-- Append a notification to the outbound log. -/
def notifyOut (s : SessionS) (n : Notif) : SessionS :=
  {s with notifications := s.notifications ++ [n]}

def cancelAllTimers (s : SessionS) : SessionS :=
  {s with rekeyTimer := false, connectingTimer := false,
          reattemptTimer := false}

/-- Transition into `PermanentError` (§7): cancel everything and emit
`PermanentFailure(status)`. -/
def enterPermanentError (s : SessionS) (st : StatusC) : SessionS :=
  notifyOut {cancelAllTimers s with state := .permanentError,
                                    datapath := false}
    (.permanentFailure st)

/-- Transition into `SessionError` (§7): cancel everything and emit
`ControlPlaneDisconnected(status)`. -/
def enterSessionError (s : SessionS) (st : StatusC) : SessionS :=
  notifyOut {cancelAllTimers s with state := .sessionError,
                                    datapath := false}
    (.controlPlaneDisconnected st)

/-- States with the control plane up (`state ≥ ControlPlaneConnected` in
the spec's ordering). -/
def controlPlaneUp : SState → Bool
  | .controlPlaneConnected | .dataPlaneConnecting
  | .dataPlaneConnected => true
  | _ => false

/-- Dormant states: only `Stop` has any further effect (§3 terminal states
plus `SessionError`, which awaits teardown). -/
def sessionInert : SState → Bool
  | .sessionError | .permanentError | .stopped => true
  | _ => false

/-- Bring up (or switch) the datapath after `CreateTunnel` (§4.5 table rows
for `SetNetwork` from `ControlPlaneConnected`): on success arm the
datapath-connecting timer, notify `DatapathConnecting` and go to
`DataPlaneConnecting`; on failure propagate per §7 (permanent iff the
status detail says so). -/
def attemptDatapath (s : SessionS) (tunnel : TunnelResult) : SessionS :=
  match tunnel with
  | .ok => notifyOut {s with state := .dataPlaneConnecting, datapath := true,
                             connectingTimer := true} .datapathConnecting
  | .err st =>
    if isPermanentError st then enterPermanentError s st
    else enterSessionError s st

/-- Schedule a bounded datapath reattempt (§4.5 `DatapathFailed`):
increment the counter and arm the 500 ms reattempt timer while the bound
allows; once a further failure would pass `max_datapath_reattempts`, emit
`DatapathDisconnected(network, status)` and clear the datapath instead. -/
def scheduleReattempt (s : SessionS) (st : StatusC) : SessionS :=
  if s.reattemptCount < maxDatapathReattempts then
    {s with state := .dataPlaneConnecting,
            reattemptCount := s.reattemptCount + 1, reattemptTimer := true}
  else
    notifyOut {s with state := .controlPlaneConnected, datapath := false,
                      reattemptCount := 0, reattemptTimer := false,
                      connectingTimer := false}
      (.datapathDisconnected s.activeNetwork st)

/-- The status the datapath-connecting watchdog reports. -/
def connectingTimerStatus : StatusC :=
  ⟨.deadlineExceeded, "Datapath connecting timer expired", .unknown⟩

/-- Modelled from the spec: one step of the Session state machine
(§4.5 operations and transition table, §7 propagation), cross-checked
against `session_test.cc`. -/
def step (s : SessionS) (e : Event) : SessionS :=
  match e with
  | .stop => {cancelAllTimers s with state := .stopped, datapath := false}
  | .start =>
    if s.state = .initialized then {s with state := .egressSessionCreated}
    else s
  | .provisioned tunnel =>
    if s.state = .egressSessionCreated then
      let s1 := notifyOut {s with state := .controlPlaneConnected,
                                  rekeyTimer := true} .controlPlaneConnected
      match s1.activeNetwork with
      | some _ => attemptDatapath s1 tunnel
      | none => s1
    else s
  | .provisioningFailure st permanent =>
    if s.state = .initialized ∨ s.state = .egressSessionCreated then
      if permanent then enterPermanentError s st else enterSessionError s st
    else s
  | .setNetwork ni tunnel =>
    if sessionInert s.state then s
    else if controlPlaneUp s.state then
      attemptDatapath {s with activeNetwork := some ni} tunnel
    else {s with activeNetwork := some ni}
  | .setNoNetworkAvailable =>
    if sessionInert s.state then s
    else if controlPlaneUp s.state then
      {s with activeNetwork := none, reattemptTimer := false,
              connectingTimer := false, datapath := false,
              state := .controlPlaneConnected}
    else {s with activeNetwork := none}
  | .datapathEstablished =>
    if s.state = .dataPlaneConnecting ∨ s.state = .dataPlaneConnected then
      notifyOut {s with state := .dataPlaneConnected, reattemptCount := 0,
                        reattemptTimer := false, connectingTimer := false,
                        endpointCursor := .v6} .datapathConnected
    else s
  | .datapathFailed st =>
    if s.state = .dataPlaneConnecting ∨ s.state = .dataPlaneConnected then
      scheduleReattempt s st
    else s
  | .datapathPermanentFailure st =>
    if s.state = .dataPlaneConnecting ∨ s.state = .dataPlaneConnected then
      notifyOut {s with state := .controlPlaneConnected, datapath := false,
                        reattemptCount := 0, reattemptTimer := false,
                        connectingTimer := false}
        (.datapathDisconnected s.activeNetwork st)
    else s
  | .attemptDatapathReconnect =>
    if s.state = .dataPlaneConnecting ∧ s.reattemptTimer = true then
      {s with reattemptTimer := false, connectingTimer := true,
              endpointCursor := flipFamily s.endpointCursor}
    else s
  | .connectingTimerExpiry =>
    if s.state = .dataPlaneConnecting ∧ s.connectingTimer = true then
      scheduleReattempt {s with connectingTimer := false}
        connectingTimerStatus
    else s
  | .rekeyTimerExpiry => s
  | .uplinkMtuUpdate u t tunnel =>
    if s.state = .dataPlaneConnected then
      let s1 := {s with uplinkMtu := u, tunnelMtu := t}
      match tunnel with
      | .ok => s1
      | .err st =>
        if isPermanentError st then enterPermanentError s1 st
        else enterSessionError s1 st
    else s
  | .downlinkMtuUpdate d =>
    if s.state = .dataPlaneConnected then {s with downlinkMtu := d} else s
  | .forceTunnelUpdate tunnel =>
    if controlPlaneUp s.state then
      match tunnel with
      | .ok => s
      | .err st =>
        if isPermanentError st then enterPermanentError s st
        else enterSessionError s st
    else s

/-- Run the machine from the freshly constructed Session. -/
def runSession (evs : List Event) : SessionS :=
  evs.foldl step initialSession

/-! ## Supporting lemmas: big-endian byte strings -/

theorem foldl_be_acc (bs : List Nat) :
    ∀ a : Nat, bs.foldl (fun x b => x * 256 + b) a =
      a * 256 ^ bs.length + beNat bs := by
  induction bs with
  | nil => intro a; simp [beNat]
  | cons b bs ih =>
    intro a
    show (bs.foldl _ (a * 256 + b)) = _
    rw [ih (a * 256 + b)]
    have hb : beNat (b :: bs) = b * 256 ^ bs.length + beNat bs := by
      show (bs.foldl _ (0 * 256 + b)) = _
      rw [ih (0 * 256 + b)]; ring
    rw [hb]; simp [List.length_cons]; ring

theorem beNat_cons (b : Nat) (bs : List Nat) :
    beNat (b :: bs) = b * 256 ^ bs.length + beNat bs := by
  show (bs.foldl _ (0 * 256 + b)) = _
  rw [foldl_be_acc bs (0 * 256 + b)]; ring

/-- The head byte dominates the tail in the big-endian order. -/
theorem be_head_lt (a b r r2 X : Nat) (hab : a < b) (hr : r < X) :
    a * X + r < b * X + r2 := by nlinarith

theorem beNat_lt (bs : List Nat) (h : ∀ b ∈ bs, b < 256) :
    beNat bs < 256 ^ bs.length := by
  induction bs with
  | nil => simp [beNat]
  | cons b bs ih =>
    rw [beNat_cons]
    have hb : b < 256 := h b (List.mem_cons_self b bs)
    have hbs : beNat bs < 256 ^ bs.length :=
      ih (fun x hx => h x (List.mem_cons_of_mem b hx))
    have hpow : 256 ^ (b :: bs).length = 256 * 256 ^ bs.length := by
      simp [List.length_cons, pow_succ]; ring
    rw [hpow]
    nlinarith

/-- Lexicographic order on equal-length bounded byte strings is exactly the
order of their big-endian values. -/
theorem lexLeBytes_iff_beNat (as : List Nat) :
    ∀ bs : List Nat, as.length = bs.length → (∀ a ∈ as, a < 256) →
      (∀ b ∈ bs, b < 256) →
      (lexLeBytes as bs = true ↔ beNat as ≤ beNat bs) := by
  induction as with
  | nil =>
    intro bs hlen _ _
    have : bs = [] := by
      cases bs with
      | nil => rfl
      | cons x xs => simp at hlen
    subst this
    simp [lexLeBytes]
  | cons a as ih =>
    intro bs hlen ha hb
    cases bs with
    | nil => simp at hlen
    | cons b bs2 =>
      have hlen2 : as.length = bs2.length := by simpa using hlen
      have ha1 : a < 256 := ha a (List.mem_cons_self a as)
      have hb1 : b < 256 := hb b (List.mem_cons_self b bs2)
      have haas : ∀ x ∈ as, x < 256 :=
        fun x hx => ha x (List.mem_cons_of_mem a hx)
      have hbbs : ∀ x ∈ bs2, x < 256 :=
        fun x hx => hb x (List.mem_cons_of_mem b hx)
      have hasl : beNat as < 256 ^ as.length := beNat_lt as haas
      have hbsl : beNat bs2 < 256 ^ bs2.length := beNat_lt bs2 hbbs
      rw [beNat_cons, beNat_cons, ← hlen2]
      show ((if a < b then true else if b < a then false
              else lexLeBytes as bs2) = true) ↔ _
      rcases Nat.lt_trichotomy a b with hab | hab | hab
      · rw [if_pos hab]
        have hlt : a * 256 ^ as.length + beNat as <
            b * 256 ^ as.length + beNat bs2 := be_head_lt _ _ _ _ _ hab hasl
        simp only [true_iff]
        exact Nat.le_of_lt hlt
      · subst hab
        rw [if_neg (lt_irrefl a), if_neg (lt_irrefl a)]
        rw [ih bs2 hlen2 haas hbbs]
        constructor <;> intro hle
        · exact Nat.add_le_add_left hle _
        · omega
      · rw [if_neg (by omega : ¬ a < b), if_pos hab]
        have hlt : b * 256 ^ as.length + beNat bs2 <
            a * 256 ^ as.length + beNat as :=
          be_head_lt _ _ _ _ _ hab (hlen2 ▸ hbsl)
        constructor <;> intro hle
        · simp at hle
        · omega

theorem uint64ToBytes_length (x : Nat) : (uint64ToBytes x).length = 8 := by
  simp [uint64ToBytes]

theorem uint64ToBytes_lt (x : Nat) : ∀ b ∈ uint64ToBytes x, b < 256 := by
  intro b hb
  simp only [uint64ToBytes, List.mem_cons, List.not_mem_nil, or_false] at hb
  rcases hb with rfl | rfl | rfl | rfl | rfl | rfl | rfl | rfl <;> omega

theorem bytesToUint64_uint64ToBytes (x : Nat)
    (h : x < 18446744073709551616) :
    bytesToUint64 (uint64ToBytes x) = x := by
  simp only [bytesToUint64, uint64ToBytes, beNat, List.foldl]
  omega

/-! ## Supporting lemmas: hex encoding and the SHA-256 digest shape -/

theorem hexCodeVal_hexDigitCode (n : Nat) (h : n < 16) :
    hexCodeVal (hexDigitCode n) = some n := by
  by_cases h10 : n < 10
  · simp only [hexDigitCode, if_pos h10, hexCodeVal]
    rw [if_pos (by omega)]
    congr 1
    omega
  · simp only [hexDigitCode, if_neg h10, hexCodeVal]
    rw [if_neg (by omega), if_pos (by omega)]
    congr 1
    omega

theorem foldl_hexAccum_bytesToHexCodes (bs : List Nat)
    (h : ∀ b ∈ bs, b < 256) :
    ∀ a : Nat, (bytesToHexCodes bs).foldl hexAccum (some a) =
      some (bs.foldl (fun x b => x * 256 + b) a) := by
  induction bs with
  | nil => intro a; simp [bytesToHexCodes]
  | cons b bs ih =>
    intro a
    have hb : b < 256 := h b (List.mem_cons_self b bs)
    have hhi : b / 16 % 16 < 16 := Nat.mod_lt _ (by norm_num)
    have hlo : b % 16 < 16 := Nat.mod_lt _ (by norm_num)
    simp only [bytesToHexCodes, byteToHexCodes, List.cons_append,
      List.nil_append, List.foldl_cons]
    rw [show hexAccum (some a) (hexDigitCode (b / 16 % 16)) =
          some (a * 16 + b / 16 % 16) by
        simp [hexAccum, hexCodeVal_hexDigitCode _ hhi]]
    rw [show hexAccum (some (a * 16 + b / 16 % 16)) (hexDigitCode (b % 16)) =
          some ((a * 16 + b / 16 % 16) * 16 + b % 16) by
        simp [hexAccum, hexCodeVal_hexDigitCode _ hlo]]
    rw [ih (fun x hx => h x (List.mem_cons_of_mem b hx))]
    congr 2
    omega

theorem bytesToHexCodes_take (bs : List Nat) :
    ∀ k : Nat, (bytesToHexCodes bs).take (2 * k) =
      bytesToHexCodes (bs.take k) := by
  induction bs with
  | nil => intro k; simp [bytesToHexCodes]
  | cons b bs ih =>
    intro k
    cases k with
    | zero => simp [bytesToHexCodes]
    | succ k =>
      simp only [bytesToHexCodes, byteToHexCodes, List.cons_append,
        List.nil_append, List.take_succ_cons]
      rw [show 2 * (k + 1) = ((2 * k) + 1) + 1 by ring]
      simp only [List.take_succ_cons, bytesToHexCodes, byteToHexCodes,
        List.cons_append, List.nil_append]
      rw [ih k]

theorem bytesToHexCodes_ne_nil (b : Nat) (bs : List Nat) :
    bytesToHexCodes (b :: bs) ≠ [] := by
  simp [bytesToHexCodes, byteToHexCodes]

/-- `SimpleHexAtoi` undoes `BytesToHexString` on up to eight bytes: it
recovers exactly the big-endian value. -/
theorem simpleHexAtoi_bytesToHexCodes (bs : List Nat) (hne : bs ≠ [])
    (h : ∀ b ∈ bs, b < 256) (hlen : bs.length ≤ 8) :
    simpleHexAtoi (bytesToHexCodes bs) = some (beNat bs) := by
  obtain ⟨b, bs2, rfl⟩ : ∃ b bs2, bs = b :: bs2 := by
    cases bs with
    | nil => exact absurd rfl hne
    | cons b bs2 => exact ⟨b, bs2, rfl⟩
  rw [simpleHexAtoi, if_neg (bytesToHexCodes_ne_nil b bs2)]
  rw [foldl_hexAccum_bytesToHexCodes _ h 0]
  have hval : (b :: bs2).foldl (fun x b => x * 256 + b) 0 = beNat (b :: bs2) :=
    rfl
  rw [hval, Option.some_bind]
  have hlt : beNat (b :: bs2) < 18446744073709551616 := by
    have h1 : beNat (b :: bs2) < 256 ^ (b :: bs2).length := beNat_lt _ h
    have h2 : (256 : Nat) ^ (b :: bs2).length ≤ 256 ^ 8 :=
      Nat.pow_le_pow_right (by norm_num) hlen
    calc beNat (b :: bs2) < 256 ^ (b :: bs2).length := h1
      _ ≤ 256 ^ 8 := h2
      _ = 18446744073709551616 := by norm_num
  rw [if_pos hlt]

theorem wordBytes_length (x : Nat) : (wordBytes x).length = 4 := by
  simp [wordBytes]

theorem wordBytes_lt (x : Nat) : ∀ b ∈ wordBytes x, b < 256 := by
  intro b hb
  simp only [wordBytes, List.mem_cons, List.not_mem_nil, or_false] at hb
  rcases hb with rfl | rfl | rfl | rfl <;> omega

theorem sha256_length (msg : List Nat) : (sha256 msg).length = 32 := by
  simp [sha256, wordBytes]

theorem sha256_lt (msg : List Nat) : ∀ b ∈ sha256 msg, b < 256 := by
  intro b hb
  simp only [sha256, List.mem_append] at hb
  rcases hb with ((((((h | h) | h) | h) | h) | h) | h) | h <;>
    exact wordBytes_lt _ _ h

/-- The fingerprint factors through the concatenated field bytes. -/
theorem fingerprint_input_congr (m1 m2 : PublicMetadata)
    (h : fingerprintInput m1 = fingerprintInput m2) :
    fingerprintPublicMetadata m1 = fingerprintPublicMetadata m2 := by
  simp only [fingerprintPublicMetadata, h]

/-! ## The claims -/

/-- C2: for every `PublicMetadata`, `FingerprintPublicMetadata` returns
exactly the value the spec describes: concatenate the fields in tag order
(zero-valued numeric fields and empty strings contributing nothing), apply
SHA-256, and read the first 8 bytes of the digest as a big-endian unsigned
64-bit integer.  The code's detour through
`BytesToHexString`/`SimpleHexAtoi.substr(0, 16)` computes that value and
never hits its error return. -/
theorem fingerprint_matches_spec (m : PublicMetadata) :
    fingerprintPublicMetadata m = some (fingerprintSpecModel m) := by
  have hlen32 : (sha256 (fingerprintInput m)).length = 32 := sha256_length _
  have htake : ((sha256 (fingerprintInput m)).take 8).length = 8 := by
    simp [List.length_take, hlen32]
  have hne : (sha256 (fingerprintInput m)).take 8 ≠ [] := by
    intro hcon
    rw [hcon] at htake
    simp at htake
  have hb : ∀ b ∈ (sha256 (fingerprintInput m)).take 8, b < 256 :=
    fun b hbm => sha256_lt _ b (List.mem_of_mem_take hbm)
  show simpleHexAtoi ((bytesToHexCodes
      (sha256 (fingerprintInput m) ++ List.replicate 32 0)).take 16) = _
  rw [show (16 : Nat) = 2 * 8 by norm_num, bytesToHexCodes_take,
    List.take_append_of_le_length (by rw [hlen32]; norm_num),
    simpleHexAtoi_bytesToHexCodes _ hne hb (by simp [htake])]
  rfl

/-- C3: the fingerprint is deterministic; it ignores `debug_mode`
entirely (so a `debug_mode` equal to its default 0 — which in proto3 is
the same message as the field being absent — does not change it, nor does
adding the field at all); and a submessage field set to its default value
fingerprints identically to that field being absent, for both
`expiration` (in particular `nanos = 0`) and `exit_location`. -/
theorem fingerprint_deterministic_and_default_blind :
    (∀ m1 m2 : PublicMetadata, m1 = m2 →
      fingerprintPublicMetadata m1 = fingerprintPublicMetadata m2) ∧
    (∀ (m : PublicMetadata) (d : Nat),
      fingerprintPublicMetadata {m with debugMode := d} =
        fingerprintPublicMetadata m) ∧
    (∀ m : PublicMetadata,
      fingerprintPublicMetadata {m with expiration := some ⟨0, 0⟩} =
        fingerprintPublicMetadata {m with expiration := none}) ∧
    (∀ m : PublicMetadata,
      fingerprintPublicMetadata {m with exitLocation := some ⟨[], []⟩} =
        fingerprintPublicMetadata {m with exitLocation := none}) := by
  refine ⟨fun m1 m2 h => by rw [h], ?_, ?_, ?_⟩
  · intro m d
    cases m
    rfl
  · intro m
    cases m
    rfl
  · intro m
    cases m
    rfl

/-- The metadata of scenario S7 of the spec. -/
def sampleMetadata : PublicMetadata :=
  ⟨some ⟨asciiBytes ("US"), asciiBytes ("us_ca_san_diego")⟩,
   asciiBytes ("service_type"), some ⟨900, 0⟩, 0⟩

/-- Witness for C3 at the S7 metadata. -/
theorem fingerprint_deterministic_witness :
    fingerprintPublicMetadata sampleMetadata =
      fingerprintPublicMetadata sampleMetadata :=
  fingerprint_deterministic_and_default_blind.1
    sampleMetadata sampleMetadata rfl

/-- C4: the sortable key encoding round-trips every unsigned 64-bit value,
produces 8 bytes, and its lexicographic byte order coincides with the
numeric order. -/
theorem sortable_key_encoding (x y : Nat)
    (hx : x < 18446744073709551616) (hy : y < 18446744073709551616) :
    bytesToUint64 (uint64ToBytes x) = x ∧
    (uint64ToBytes x).length = 8 ∧
    (x ≤ y ↔ lexLeBytes (uint64ToBytes x) (uint64ToBytes y) = true) := by
  refine ⟨bytesToUint64_uint64ToBytes x hx, uint64ToBytes_length x, ?_⟩
  rw [lexLeBytes_iff_beNat _ _ (by simp [uint64ToBytes])
    (uint64ToBytes_lt x) (uint64ToBytes_lt y)]
  have h1 : beNat (uint64ToBytes x) = x := bytesToUint64_uint64ToBytes x hx
  have h2 : beNat (uint64ToBytes y) = y := bytesToUint64_uint64ToBytes y hy
  rw [h1, h2]

/-- Witness for C4 at 7 and 11. -/
theorem sortable_key_encoding_witness :
    bytesToUint64 (uint64ToBytes 7) = 7 ∧
    (uint64ToBytes 7).length = 8 ∧
    (7 ≤ 11 ↔ lexLeBytes (uint64ToBytes 7) (uint64ToBytes 11) = true) :=
  sortable_key_encoding 7 11 (by norm_num) (by norm_num)

/-- First of the two colliding messages for C10: country `"USA"`, empty
`city_geo_id`. -/
def collidingMetadataA : PublicMetadata :=
  ⟨some ⟨asciiBytes ("USA"), []⟩, asciiBytes ("service_type"),
   some ⟨900, 0⟩, 0⟩

/-- Second colliding message: country `"US"`, `city_geo_id` `"A"`. -/
def collidingMetadataB : PublicMetadata :=
  ⟨some ⟨asciiBytes ("US"), asciiBytes ("A")⟩, asciiBytes ("service_type"),
   some ⟨900, 0⟩, 0⟩

/-- C10: the separator-free concatenation makes the fingerprint input (and
hence the fingerprint) collide on two distinct messages. -/
theorem fingerprint_not_injective :
    collidingMetadataA ≠ collidingMetadataB ∧
    fingerprintInput collidingMetadataA = fingerprintInput collidingMetadataB ∧
    fingerprintPublicMetadata collidingMetadataA =
      fingerprintPublicMetadata collidingMetadataB := by
  refine ⟨by decide, by decide, fingerprint_input_congr _ _ (by decide)⟩

/-! ## Session machine invariants -/

/-- Every step keeps the reattempt counter within the configured bound. -/
theorem step_reattempt_le (s : SessionS) (e : Event)
    (h : s.reattemptCount ≤ maxDatapathReattempts) :
    (step s e).reattemptCount ≤ maxDatapathReattempts := by
  obtain ⟨st, an, dp, rc, rt, ct, rk, ec, um, tm, dm, ns⟩ := s
  cases e <;>
    simp only [step, scheduleReattempt, attemptDatapath, enterPermanentError,
      enterSessionError, notifyOut, cancelAllTimers] <;>
    (repeat' split) <;> simp_all <;> omega

theorem foldl_reattempt_le (evs : List Event) :
    ∀ s : SessionS, s.reattemptCount ≤ maxDatapathReattempts →
      (evs.foldl step s).reattemptCount ≤ maxDatapathReattempts := by
  induction evs with
  | nil => intro s h; exact h
  | cons e evs ih => intro s h; exact ih _ (step_reattempt_le s e h)

/-- Every step preserves "the rekey timer is armed iff the control plane
is up". -/
theorem step_rekey_inv (s : SessionS) (e : Event)
    (h : s.rekeyTimer = controlPlaneUp s.state) :
    (step s e).rekeyTimer = controlPlaneUp (step s e).state := by
  obtain ⟨st, an, dp, rc, rt, ct, rk, ec, um, tm, dm, ns⟩ := s
  cases e <;> cases st <;>
    simp_all only [step, scheduleReattempt, attemptDatapath,
      enterPermanentError, enterSessionError, notifyOut, cancelAllTimers,
      controlPlaneUp, sessionInert] <;>
    (repeat' split) <;> simp_all [controlPlaneUp]

theorem foldl_rekey_inv (evs : List Event) :
    ∀ s : SessionS, s.rekeyTimer = controlPlaneUp s.state →
      (evs.foldl step s).rekeyTimer =
        controlPlaneUp (evs.foldl step s).state := by
  induction evs with
  | nil => intro s h; exact h
  | cons e evs ih => intro s h; exact ih _ (step_rekey_inv s e h)

/-- C1: along every input sequence the reattempt counter stays within
`max_datapath_reattempts`, and a `DatapathFailed` arriving with the
counter already at the bound emits `DatapathDisconnected(network, status)`
with the failing status, clears the datapath and arms no reattempt timer,
returning to `ControlPlaneConnected`. -/
theorem bounded_reattempts :
    (∀ evs : List Event,
      (runSession evs).reattemptCount ≤ maxDatapathReattempts) ∧
    (∀ (s : SessionS) (st : StatusC),
      s.state = .dataPlaneConnecting ∨ s.state = .dataPlaneConnected →
      s.reattemptCount = maxDatapathReattempts →
      (step s (.datapathFailed st)).notifications =
        s.notifications ++ [.datapathDisconnected s.activeNetwork st] ∧
      (step s (.datapathFailed st)).datapath = false ∧
      (step s (.datapathFailed st)).reattemptTimer = false ∧
      (step s (.datapathFailed st)).state = .controlPlaneConnected) := by
  constructor
  · intro evs
    exact foldl_reattempt_le evs initialSession (by decide)
  · intro s st hstate hcount
    simp only [step]
    rw [if_pos hstate]
    rw [scheduleReattempt, if_neg (by omega)]
    simp [notifyOut]

/-- The Session state of the bounded-reattempt scenario S3 right before
the fifth failure: still `DataPlaneConnecting` with the counter
saturated. -/
def reattemptSaturated : SessionS :=
  ⟨.dataPlaneConnecting, some ⟨123, .cellular⟩, true, 4, true, false, true,
   .v6, 0, 0, 0, []⟩

def internalError : StatusC := ⟨.internal, "Some error", .unknown⟩

/-- Witness for C1: the fifth failure of scenario S3. -/
theorem bounded_reattempts_witness :
    (runSession [.start]).reattemptCount ≤ maxDatapathReattempts ∧
    (step reattemptSaturated (.datapathFailed internalError)).notifications =
      reattemptSaturated.notifications ++
        [.datapathDisconnected reattemptSaturated.activeNetwork
          internalError] ∧
    (step reattemptSaturated (.datapathFailed internalError)).datapath =
      false ∧
    (step reattemptSaturated
      (.datapathFailed internalError)).reattemptTimer = false ∧
    (step reattemptSaturated (.datapathFailed internalError)).state =
      .controlPlaneConnected :=
  ⟨bounded_reattempts.1 [.start],
   bounded_reattempts.2 reattemptSaturated internalError (Or.inl rfl) rfl⟩

/-- Counterexample to C5 as stated: right after `Provisioned` the Session
is in `ControlPlaneConnected` — not `DataPlaneConnected` — and the rekey
timer is already armed (the expectations of
`SessionTest.DatapathConnectingTimerExpired` show the 24h timer starting
without `DatapathEstablished` ever firing). -/
theorem rekey_timer_counterexample :
    (runSession [.start, .provisioned .ok]).state =
      .controlPlaneConnected ∧
    (runSession [.start, .provisioned .ok]).rekeyTimer = true := by
  constructor <;> rfl

/-- C5 (amended): in every reachable Session state the rekey timer is
armed iff the control plane is connected — state `ControlPlaneConnected`,
`DataPlaneConnecting` or `DataPlaneConnected` — and the session has not
been stopped. -/
theorem rekey_timer_armed_iff_control_plane (evs : List Event) :
    (runSession evs).rekeyTimer = controlPlaneUp (runSession evs).state :=
  foldl_rekey_inv evs initialSession (by decide)

/-- C6: a `CreateTunnel` failure during `SetNetwork` or
`ForceTunnelUpdate` whose status carries the `VPN_PERMISSION_REVOKED`
detail makes the Session emit `PermanentFailure(status)`, move to
`PermanentError` and schedule no reattempt; any other failing status
yields `ControlPlaneDisconnected(status)` instead.  Permanence depends
only on the structured detail, never on the status text. -/
theorem tunnel_failure_permanence (s : SessionS) (ni : NetworkInfo)
    (st : StatusC) (hs : s.state = .controlPlaneConnected) :
    (st.detail = .vpnPermissionRevoked →
      (step s (.setNetwork ni (.err st))).state = .permanentError ∧
      (step s (.setNetwork ni (.err st))).notifications =
        s.notifications ++ [.permanentFailure st] ∧
      (step s (.setNetwork ni (.err st))).reattemptTimer = false ∧
      (step s (.forceTunnelUpdate (.err st))).state = .permanentError ∧
      (step s (.forceTunnelUpdate (.err st))).notifications =
        s.notifications ++ [.permanentFailure st]) ∧
    (st.detail ≠ .vpnPermissionRevoked →
      (step s (.setNetwork ni (.err st))).notifications =
        s.notifications ++ [.controlPlaneDisconnected st] ∧
      (step s (.forceTunnelUpdate (.err st))).notifications =
        s.notifications ++ [.controlPlaneDisconnected st]) ∧
    (∀ (c : StatusCode) (msg : String),
      isPermanentError ⟨c, msg, st.detail⟩ = isPermanentError st) := by
  refine ⟨?_, ?_, fun c msg => by simp [isPermanentError]⟩
  · intro hdet
    simp [step, hs, sessionInert, controlPlaneUp, attemptDatapath,
      isPermanentError, hdet, enterPermanentError, cancelAllTimers,
      notifyOut]
  · intro hdet
    simp [step, hs, sessionInert, controlPlaneUp, attemptDatapath,
      isPermanentError, hdet, enterSessionError, cancelAllTimers,
      notifyOut]

/-- The Session right after the control plane connects with no network
set. -/
def cpConnectedSession : SessionS := runSession [.start, .provisioned .ok]

/-- The status `CreateVpnRevokedError` builds in `session_test.cc`. -/
def revokedStatus : StatusC :=
  ⟨.failedPrecondition, "vpn permission revoked", .vpnPermissionRevoked⟩

/-- Witness for C6: scenario S4. -/
theorem tunnel_failure_permanence_witness :
    (step cpConnectedSession
      (.setNetwork ⟨123, .cellular⟩ (.err revokedStatus))).state =
        .permanentError ∧
    (step cpConnectedSession
      (.setNetwork ⟨123, .cellular⟩ (.err revokedStatus))).notifications =
        cpConnectedSession.notifications ++
          [.permanentFailure revokedStatus] ∧
    (step cpConnectedSession
      (.setNetwork ⟨123, .cellular⟩ (.err revokedStatus))).reattemptTimer =
        false ∧
    (step cpConnectedSession
      (.forceTunnelUpdate (.err revokedStatus))).state = .permanentError ∧
    (step cpConnectedSession
      (.forceTunnelUpdate (.err revokedStatus))).notifications =
        cpConnectedSession.notifications ++
          [.permanentFailure revokedStatus] :=
  (tunnel_failure_permanence cpConnectedSession ⟨123, .cellular⟩
    revokedStatus rfl).1 rfl

/-- C7: whatever happened before, a `DatapathEstablished` notification
resets the reattempt counter to 0, clears the pending reattempt timer and
cancels the datapath-connecting timer. -/
theorem established_resets_attempt_state (s : SessionS)
    (h : s.state = .dataPlaneConnecting ∨ s.state = .dataPlaneConnected) :
    (step s .datapathEstablished).reattemptCount = 0 ∧
    (step s .datapathEstablished).reattemptTimer = false ∧
    (step s .datapathEstablished).connectingTimer = false ∧
    (step s .datapathEstablished).state = .dataPlaneConnected := by
  simp only [step]
  rw [if_pos h]
  simp [notifyOut]

/-- Witness for C7: `DatapathEstablished` right after four failures. -/
theorem established_resets_attempt_state_witness :
    (step reattemptSaturated .datapathEstablished).reattemptCount = 0 ∧
    (step reattemptSaturated .datapathEstablished).reattemptTimer = false ∧
    (step reattemptSaturated .datapathEstablished).connectingTimer = false ∧
    (step reattemptSaturated .datapathEstablished).state =
      .dataPlaneConnected :=
  established_resets_attempt_state reattemptSaturated (Or.inl rfl)

/-- C8: the MTU update handlers store their values only in
`DataPlaneConnected`; in every other state all three MTU fields are left
unchanged. -/
theorem mtu_updates_only_when_connected (s : SessionS) (u t d : Nat)
    (tr : TunnelResult) (h : s.state ≠ .dataPlaneConnected) :
    (step s (.uplinkMtuUpdate u t tr)).uplinkMtu = s.uplinkMtu ∧
    (step s (.uplinkMtuUpdate u t tr)).tunnelMtu = s.tunnelMtu ∧
    (step s (.uplinkMtuUpdate u t tr)).downlinkMtu = s.downlinkMtu ∧
    (step s (.downlinkMtuUpdate d)).uplinkMtu = s.uplinkMtu ∧
    (step s (.downlinkMtuUpdate d)).tunnelMtu = s.tunnelMtu ∧
    (step s (.downlinkMtuUpdate d)).downlinkMtu = s.downlinkMtu ∧
    (∀ s2 : SessionS, s2.state = .dataPlaneConnected →
      (step s2 (.uplinkMtuUpdate u t .ok)).uplinkMtu = u ∧
      (step s2 (.uplinkMtuUpdate u t .ok)).tunnelMtu = t ∧
      (step s2 (.downlinkMtuUpdate d)).downlinkMtu = d) := by
  simp only [step]
  rw [if_neg h, if_neg h]
  refine ⟨rfl, rfl, rfl, rfl, rfl, rfl, ?_⟩
  intro s2 h2
  rw [if_pos h2, if_pos h2]
  simp

/-- The Session in `DataPlaneConnecting` after a failure, as in
`SessionTest.UplinkMtuUpdateHandlerDataPlaneDisconnected`. -/
def reconnectingSession : SessionS :=
  ⟨.dataPlaneConnecting, some ⟨123, .cellular⟩, true, 1, true, false, true,
   .v6, 0, 0, 0, []⟩

/-- Witness for C8 in `DataPlaneConnecting`. -/
theorem mtu_updates_witness :
    (step reconnectingSession (.uplinkMtuUpdate 123 456 .ok)).uplinkMtu =
      reconnectingSession.uplinkMtu ∧
    (step reconnectingSession (.uplinkMtuUpdate 123 456 .ok)).tunnelMtu =
      reconnectingSession.tunnelMtu ∧
    (step reconnectingSession (.uplinkMtuUpdate 123 456 .ok)).downlinkMtu =
      reconnectingSession.downlinkMtu ∧
    (step reconnectingSession (.downlinkMtuUpdate 123)).uplinkMtu =
      reconnectingSession.uplinkMtu ∧
    (step reconnectingSession (.downlinkMtuUpdate 123)).tunnelMtu =
      reconnectingSession.tunnelMtu ∧
    (step reconnectingSession (.downlinkMtuUpdate 123)).downlinkMtu =
      reconnectingSession.downlinkMtu ∧
    (∀ s2 : SessionS, s2.state = .dataPlaneConnected →
      (step s2 (.uplinkMtuUpdate 123 456 .ok)).uplinkMtu = 123 ∧
      (step s2 (.uplinkMtuUpdate 123 456 .ok)).tunnelMtu = 456 ∧
      (step s2 (.downlinkMtuUpdate 123)).downlinkMtu = 123) :=
  mtu_updates_only_when_connected reconnectingSession 123 456 123 .ok
    (by decide)

/-- C9: the packet pool has fixed capacity 400 and a 50 ms borrow
deadline; `Borrow` with nothing available before the deadline yields the
null handle, a successful `Borrow` hands out a packet from the available
set (never a fresh allocation — every handle is an index into the fixed
backing array), and releasing a handle returns its packet to the
available set. -/
theorem packet_pool_fixed_capacity :
    kPacketPoolSize = 400 ∧
    initPool.available.length = kPacketPoolSize ∧
    kBorrowWaitTimeoutMillis = 50 ∧
    (∀ s : PoolState, s.available = [] → poolBorrow s = (none, s)) ∧
    (∀ (s : PoolState) (p : Fin kPacketPoolSize) (s2 : PoolState),
      poolBorrow s = (some p, s2) →
      p ∈ s.available ∧ s2.available = s.available.dropLast) ∧
    (∀ (s : PoolState) (p : Fin kPacketPoolSize),
      p ∈ (poolReturn s p).available) := by
  refine ⟨rfl, by simp [initPool], rfl, ?_, ?_, ?_⟩
  · intro s hs
    simp [poolBorrow, hs]
  · intro s p s2 hb
    unfold poolBorrow at hb
    cases hgl : s.available.getLast? with
    | none =>
      rw [hgl] at hb
      simp at hb
    | some q =>
      rw [hgl] at hb
      simp only [Prod.mk.injEq, Option.some.injEq] at hb
      obtain ⟨rfl, rfl⟩ := hb
      exact ⟨List.mem_of_mem_getLast? hgl, rfl⟩
  · intro s p
    simp [poolReturn]

/-- A pool state with a single available packet. -/
def singletonPool : PoolState := ⟨[⟨0, by decide⟩]⟩

/-- Witness for C9: borrowing from an exhausted pool and from a pool with
one packet, and returning a packet. -/
theorem packet_pool_witness :
    poolBorrow ⟨[]⟩ = (none, (⟨[]⟩ : PoolState)) ∧
    ((⟨0, by decide⟩ : Fin kPacketPoolSize) ∈ singletonPool.available ∧
      (⟨[]⟩ : PoolState).available = singletonPool.available.dropLast) ∧
    (⟨0, by decide⟩ : Fin kPacketPoolSize) ∈
      (poolReturn ⟨[]⟩ ⟨0, by decide⟩).available :=
  ⟨packet_pool_fixed_capacity.2.2.2.1 ⟨[]⟩ rfl,
   packet_pool_fixed_capacity.2.2.2.2.1 singletonPool ⟨0, by decide⟩
     ⟨[]⟩ rfl,
   packet_pool_fixed_capacity.2.2.2.2.2 ⟨[]⟩ ⟨0, by decide⟩⟩

end Krypton
